import Mathlib

/-!
Verification development for the plumx-citation-extraction client
(src/scripts/elsevier_api_client.py and src/scripts/utils.py).

The Python functions are shallowly embedded as executable Lean definitions.
HTTP traffic is external to the program, so every function that issues a
request is parameterised by an oracle describing the responses the network
would return; everything the code itself computes (query construction,
content-type dispatch, pagination control, counter extraction, sorting) is
translated directly from the source. Python strings are modelled as Lean
strings; the methods lower and strip are modelled character-wise so that
they compute. Python exceptions raised to the caller are modelled with
Except; a function that can fall off the end returning None is modelled
with Option.
-/

/-- A single-quote character, used where the Python source contains a quoted
literal (built from its code point to keep the file free of quote tokens). -/
def squote : String := String.singleton (Char.ofNat 39)

/-- Python str.lower modelled character-wise. -/
def lowerStr (s : String) : String := String.mk (s.data.map Char.toLower)

/-- Python str.strip modelled character-wise (drop whitespace at both ends). -/
def stripStr (s : String) : String :=
  String.mk (((s.data.dropWhile Char.isWhitespace).reverse.dropWhile
    Char.isWhitespace).reverse)

/-- Boolean list-prefix test (helper for the substring test below). -/
def prefixOfB : List Char → List Char → Bool
  | [], _ => true
  | _ :: _, [] => false
  | a :: as, b :: bs => a == b && prefixOfB as bs

/-- Boolean list-infix test (helper for the substring test below). -/
def infixOfB (n : List Char) : List Char → Bool
  | [] => prefixOfB n []
  | b :: bs => prefixOfB n (b :: bs) || infixOfB n bs

/-- Python substring containment, needle in hay. -/
def substrB (needle hay : String) : Bool := infixOfB needle.data hay.data

/-! ## utils.py -/

def errOperator : String :=
  "Operator must be " ++ squote ++ "AND" ++ squote ++ " or " ++ squote ++
    "OR" ++ squote ++ "."

/-- utils.join_with_operator: joins search terms with a spaced operator,
rejecting operators other than AND and OR (ValueError modelled as error). -/
def join_with_operator (search_terms : List String) (operator : String) :
    Except String String :=
  if operator = "AND" ∨ operator = "OR" then
    Except.ok (String.intercalate ( " " ++ operator ++ " " ) search_terms)
  else Except.error errOperator

/-! ## elsevier_api_client.fetch_data

The request itself is external; the embedding takes the response the network
returned (requests.Response with its content-type header, status code and
body) and models only the dispatch the function performs on it. -/

structure HttpResponse where
  contentType : String
  status : Nat
  body : String
deriving DecidableEq

/-- What fetch_data hands back to its caller: the raw response object (for
image or pdf content) or the parsed JSON body (modelled as the body text). -/
inductive FetchValue where
  | raw (resp : HttpResponse)
  | json (body : String)
deriving DecidableEq

def errXml : String :=
  "Output is in XML. Specify " ++ squote ++ "application/json" ++ squote ++
    " in headers."

/-- elsevier_api_client.fetch_data, the content-type dispatch on the response.
Returning Option.none models the implicit Python None for content types
matching none of the branches. -/
def fetch_data (response : HttpResponse) : Except String (Option FetchValue) :=
  let content_type := response.contentType
  if substrB "image" content_type || substrB "pdf" content_type then
    Except.ok (some (FetchValue.raw response))
  else if substrB "json" content_type then
    Except.ok (some (FetchValue.json response.body))
  else if substrB "xml" content_type then
    Except.error errXml
  else
    Except.ok none

/-! ## elsevier_api_client.write_query -/

def fieldsStr : String :=
  "prism:doi,dc:title,prism:publicationName,prism:coverDate,dc:creator"

def errEmptyQuery : String := "Query parameter cannot be empty."

/-- The params dictionary write_query builds: fixed start, count and field
keys, an optional date key, and the constructed query string. -/
structure QueryParams where
  start : Nat
  count : Nat
  field : String
  date : Option String
  query : String
deriving DecidableEq

/-- elsevier_api_client.write_query. Python None / empty-list filter
arguments are both falsy, so each optional list argument is modelled as a
List that may be empty. -/
def write_query (keywords subjs author_ids authors : List String)
    (date_range : Option String) : Except String QueryParams := do
  let query_list : List String := []
  let query_list ← match keywords with
    | [] => pure query_list
    | _ :: _ => do
        let ks := keywords.map (fun keyword => squote ++ keyword ++ squote)
        let j ← join_with_operator ks "AND"
        pure (query_list ++ [ "TITLE(" ++ j ++ ")" ])
  let query_list ← match subjs with
    | [] => pure query_list
    | _ :: _ => do
        let j ← join_with_operator subjs "OR"
        pure (query_list ++ [ "SUBJAREA(" ++ j ++ ")" ])
  let query_list ← match author_ids with
    | [] => pure query_list
    | _ :: _ => do
        let ids := author_ids.map (fun id => "AU-ID(" ++ id ++ ")")
        let j ← join_with_operator ids "OR"
        pure (query_list ++ [j])
  let query_list ← match authors with
    | [] => pure query_list
    | _ :: _ => do
        let j ← join_with_operator authors "OR"
        pure (query_list ++ [ "AUTHOR-NAME(" ++ j ++ ")" ])
  let query ← join_with_operator query_list "AND"
  if query = "" then Except.error errEmptyQuery
  else pure { start := 0, count := 50, field := fieldsStr,
              date := date_range, query := query }

/-! ## elsevier_api_client.extract_count / access_citation_counts -/

structure CountType where
  name : String
  total : Int
deriving DecidableEq

structure Category where
  name : String
  count_types : List CountType
deriving DecidableEq

/-- A PlumX analytics response document: the count_categories key may be
absent (no PlumX data), as may the id_value key. -/
structure PlumxResponse where
  count_categories : Option (List Category)
  id_value : Option String
deriving DecidableEq

/-- The inner for-loop of extract_count: first count type whose lowered name
contains citation_type. -/
def findTotal (types : List CountType) (citation_type : String) : Option Int :=
  match types with
  | [] => none
  | t :: ts =>
      if substrB citation_type (lowerStr t.name) then some t.total
      else findTotal ts citation_type

/-- elsevier_api_client.extract_count: scans categories for one named kind and
returns the first matching count-type total; a matched category with no
matching count type falls through to later categories; 0 if nothing matches. -/
def extract_count (categories : List Category) (citation_type kind : String) :
    Int :=
  match categories with
  | [] => 0
  | c :: cs =>
      if c.name = kind then
        match findTotal c.count_types citation_type with
        | some v => v
        | none => extract_count cs citation_type kind
      else extract_count cs citation_type kind

def errCitationType : String :=
  "Citation type must be " ++ squote ++ "news" ++ squote ++ ", " ++ squote ++
    "policy" ++ squote ++ ", or " ++ squote ++ "both" ++ squote ++ "."

/-- elsevier_api_client.access_citation_counts. The returned dictionary is
modelled as an association list from counter name to nullable count. When
count_categories is absent both Python fallback branches (with or without an
id_value to print) return the same dictionary, so they collapse here; the
prints are diagnostics only. -/
def access_citation_counts (plumx_response : PlumxResponse)
    (citation_type : String) : Except String (List (String × Option Int)) :=
  let ct := stripStr (lowerStr citation_type)
  match plumx_response.count_categories with
  | none =>
      if ct = "both" then Except.ok [ ("news", none), ("policy", none) ]
      else Except.ok [ (ct, none) ]
  | some categories =>
      if ct = "both" then
        Except.ok
          [ ("news", some (extract_count categories "news" "mention")),
            ("policy", some (extract_count categories "policy" "citation")) ]
      else if ct = "news" then
        Except.ok [ (ct, some (extract_count categories ct "mention")) ]
      else if ct = "policy" then
        Except.ok [ (ct, some (extract_count categories ct "citation")) ]
      else Except.error errCitationType

/-! ## elsevier_api_client.search_database

One page of parsed search results, as produced by fetch_data followed by
iterate_search_info: the entry list (entry payloads are opaque to the loop,
modelled as natural-number tags), the total hit count, the starting index and
the page size reported by the provider. -/

structure PageResp where
  entries : List Nat
  total : Nat
  start : Nat
  per_page : Nat

/-- The Python cap test: max_results and len(all_entries) >= max_results.
None and the number 0 are both falsy. -/
def capHit : Option Nat → Nat → Bool
  | none, _ => false
  | some m, acc => decide (m ≠ 0) && decide (m ≤ acc)

/-- The while-True pagination loop of search_database, parameterised by an
oracle giving the parsed page the provider returns for each requested start
offset. Fuel bounds the number of iterations so the function is total; a
some result means the loop hit one of its two break conditions, and the
second component counts the page fetches performed. -/
def searchLoop (oracle : Nat → PageResp) (max_results : Option Nat) :
    Nat → Nat → List Nat → Option (List Nat × Nat)
  | 0, _, _ => none
  | fuel + 1, offset, all_entries =>
      let r := oracle offset
      let all_entries := all_entries ++ r.entries
      let next_start := r.start + r.entries.length
      if r.total ≤ next_start then some (all_entries, 1)
      else if capHit max_results all_entries.length then some (all_entries, 1)
      else (searchLoop oracle max_results fuel next_start all_entries).map
        (fun p => (p.1, p.2 + 1))

/-- Endpoint selection at the top of search_database. An unrecognised
database name leaves the Python local search_url unbound, which surfaces as a
NameError at first use; that is the none case. -/
def selectSearchUrl (database_name : String) : Option String :=
  if stripStr (lowerStr database_name) = "scopus" then
    some "https://api.elsevier.com/content/search/scopus"
  else if stripStr (lowerStr database_name) = "sciencedirect" ∨
      stripStr (lowerStr database_name) = "scidir" then
    some "https://api.elsevier.com/content/search/sciencedirect"
  else none

def errScidirAuthorIds : String :=
  "SciDir does not accept subject or author ID. Provide author name or use Scopus."

def errScidirSubjs : String :=
  "SciDir does not accept the subject query parameter. Use Scopus."

def errSearchUrlUnbound : String :=
  "NameError: name search_url is not defined"

/-- elsevier_api_client.search_database: endpoint selection, provider-specific
filter validation, query construction, then the pagination loop. Credential
loading, the 5-second inter-page sleep and the JSON/CSV file writes are
external effects and are not modelled; the returned value carries the
accumulated entry list and the number of page fetches. -/
def search_database (oracle : Nat → PageResp) (keywords : List String)
    (date_range : Option String) (authors subjs author_ids : List String)
    (database_name : String) (max_results : Option Nat) (fuel : Nat) :
    Except String (Option (List Nat × Nat)) :=
  match selectSearchUrl database_name with
  | none => Except.error errSearchUrlUnbound
  | some search_url =>
      if author_ids ≠ [] ∧ substrB "sciencedirect" search_url = true then
        Except.error errScidirAuthorIds
      else if subjs ≠ [] ∧ substrB "sciencedirect" search_url = true then
        Except.error errScidirSubjs
      else
        match write_query keywords subjs author_ids authors date_range with
        | Except.error e => Except.error e
        | Except.ok params =>
            Except.ok (searchLoop oracle max_results fuel params.start [])

/-- A provider that reports a fixed total and page size, echoes the requested
start offset, and fills each page up to the page size with the remaining
entries. This is the well-formed-provider assumption under which the
pagination claims are stated. -/
def wellBehaved (oracle : Nat → PageResp) (total per_page : Nat) : Prop :=
  ∀ o, (oracle o).total = total ∧ (oracle o).start = o ∧
    (oracle o).per_page = per_page ∧
    (oracle o).entries.length = min per_page (total - o)

/-! ## elsevier_api_client.get_plumx_metrics -/

/-- One search-result record as the Metrics Enricher sees it: the prism:doi
key may be absent, and each counter key is absent before enrichment (outer
Option) and nullable once written (inner Option). -/
structure Entry where
  doi : Option String
  policy_citation_count : Option (Option Int)
  news_mentions : Option (Option Int)
deriving DecidableEq

def plumx_url (doi : String) : String :=
  "https://api.elsevier.com/analytics/plumx/doi/" ++ doi

/-- The per-entry for-loop of get_plumx_metrics, parameterised by an oracle
for the PlumX analytics responses. The second argument is the Python local
article_doi, which is only rebound when an entry has a DOI; the except branch
of the source ends in pass, not continue, so after marking a DOI-less entry
the loop falls through and still fetches at the current article_doi binding.
If article_doi has never been bound that use is a Python NameError, modelled
as an error; the returned list alongside the entries records the URL of every
analytics fetch the loop issued, in order. -/
def plumxLoop (fetch : String → PlumxResponse) :
    List Entry → Option String → Except String (List Entry × List String)
  | [], _ => Except.ok ([], [])
  | e :: rest, article_doi =>
      let (e, article_doi) :=
        match e.doi with
        | some d => (e, some d)
        | none =>
            ({ e with policy_citation_count := some none,
                      news_mentions := some none }, article_doi)
      match article_doi with
      | none => Except.error "NameError: name article_doi is not defined"
      | some d =>
          let resp := fetch (plumx_url d)
          match access_citation_counts resp "both" with
          | Except.error m => Except.error m
          | Except.ok counts =>
              match counts.lookup "policy", counts.lookup "news" with
              | some p, some n =>
                  let e := { e with policy_citation_count := some p,
                                    news_mentions := some n }
                  (plumxLoop fetch rest (some d)).map
                    (fun r => (e :: r.1, plumx_url d :: r.2))
              | _, _ => Except.error "KeyError"

/-- The list-comprehension filter of get_plumx_metrics: keep entries that
carry both counter keys. -/
def plumxFilter (entries : List Entry) : List Entry :=
  entries.filter
    (fun e => e.policy_citation_count.isSome && e.news_mentions.isSome)

/-- Comparison on nullable counters with Python float negative infinity in
the none position: none compares below every value. -/
def oleB : Option Int → Option Int → Bool
  | none, _ => true
  | some _, none => false
  | some a, some b => decide (a ≤ b)

/-- Lexicographic comparison of sort-key pairs, as Python compares tuples. -/
def keyLeB : Option Int × Option Int → Option Int × Option Int → Bool
  | (a1, a2), (b1, b2) => if a1 = b1 then oleB a2 b2 else oleB a1 b1

/-- The entry_sorter lambda of get_plumx_metrics. Both key positions fall
back to negative infinity when the policy counter is null (the news test in
the source is keyed off the policy field). The filter step guarantees both
counter keys are present when the sort runs, so the outer Option is read
with a default that never fires there. -/
def entry_sorter (e : Entry) : Option Int × Option Int :=
  let p := e.policy_citation_count.getD none
  let n := e.news_mentions.getD none
  (p, match p with | some _ => n | none => none)

/-- The descending comparison induced by entry_sorter: a comes no later than
b when the key of b is at most the key of a. -/
def entryDesc (a b : Entry) : Prop :=
  keyLeB (entry_sorter b) (entry_sorter a) = true

instance : DecidableRel entryDesc := fun _ _ =>
  inferInstanceAs (Decidable (_ = true))

/-- Python sorted with key=entry_sorter and reverse=True: a stable descending
sort. Insertion sort with the non-strict descending comparison inserts each
element after earlier-listed elements of equal key, which reproduces the
stability of Python sorted. -/
def plumxSort (entries : List Entry) : List Entry :=
  List.insertionSort entryDesc entries

/-- elsevier_api_client.get_plumx_metrics: the enrichment loop, the
both-counters filter and the descending sort. Credential loading and the CSV
write are external effects and are not modelled; the second component of the
result is the log of analytics URLs fetched. -/
def get_plumx_metrics (fetch : String → PlumxResponse) (entries : List Entry) :
    Except String (List Entry × List String) :=
  (plumxLoop fetch entries none).map
    (fun r => (plumxSort (plumxFilter r.1), r.2))

/-! ## Specification-side restatement of the Query Builder output

These definitions follow the wording of the specification (one clause per
non-empty filter category, fixed order, fixed wrappers and joiners); the
refinement theorem for the Query Builder compares write_query against them. -/

/-- Spec wording: keywords each individually quoted, AND-joined, inside a
TITLE wrapper. -/
def titleClause (keywords : List String) : String :=
  "TITLE(" ++ String.intercalate " AND "
    (keywords.map (fun k => squote ++ k ++ squote)) ++ ")"

/-- Spec wording: subjects OR-joined inside a SUBJAREA wrapper. -/
def subjClause (subjs : List String) : String :=
  "SUBJAREA(" ++ String.intercalate " OR " subjs ++ ")"

/-- Spec wording: author identifiers each wrapped in AU-ID, OR-joined, with
no outer wrapper. -/
def auidClause (author_ids : List String) : String :=
  String.intercalate " OR " (author_ids.map (fun i => "AU-ID(" ++ i ++ ")"))

/-- Spec wording: author names OR-joined inside an AUTHOR-NAME wrapper. -/
def authorClause (authors : List String) : String :=
  "AUTHOR-NAME(" ++ String.intercalate " OR " authors ++ ")"

/-- Spec wording: exactly one clause per non-empty filter category, in the
fixed order keywords, subjects, author identifiers, author names. -/
def specQueryClauses (keywords subjs author_ids authors : List String) :
    List String :=
  (if keywords = [] then [] else [titleClause keywords]) ++
  (if subjs = [] then [] else [subjClause subjs]) ++
  (if author_ids = [] then [] else [auidClause author_ids]) ++
  (if authors = [] then [] else [authorClause authors])

/-! ## Concrete data used by the claim witnesses and counterexamples -/

/-- Response-body status substitution used to state that fetch_data never
inspects the status code: only the raw echo of the response can mention it. -/
def substStatus (s : Nat) : FetchValue → FetchValue
  | FetchValue.raw resp => FetchValue.raw { resp with status := s }
  | v => v

/-- A category list shaped like a real PlumX document: the news counter lives
under the category named mention and the policy counter under the category
named citation. -/
def catsPlumx : List Category :=
  [ ⟨ "mention", [⟨ "NEWS_COUNT", 2⟩] ⟩,
    ⟨ "citation", [⟨ "POLICY_CITED_BY_COUNT", 4⟩] ⟩ ]

/-- An analytics oracle answering every URL with the same PlumX document. -/
def fetchC1 : String → PlumxResponse := fun _ => ⟨some catsPlumx, some "10.1/a"⟩

def entryWithDoi : Entry := ⟨some "10.1/a", none, none⟩

def entryNoDoi : Entry := ⟨none, none, none⟩

/-- The three entries of the sort example in the specification. -/
def mE1 : Entry := ⟨none, some (some 5), some (some 1)⟩

def mE2 : Entry := ⟨none, some none, some (some 99)⟩

def mE3 : Entry := ⟨none, some (some 5), some (some 9)⟩

/-- The category list of the claim about access_citation_counts: the counter
is placed under a category literally named news, as the specification words
it. -/
def respC2 : PlumxResponse := ⟨some [ ⟨ "news", [⟨ "mention", 7⟩] ⟩ ], none⟩

/-- The same counter placed the way the code actually looks it up: a news
count type under a category named mention. -/
def respC2fixed : PlumxResponse :=
  ⟨some [ ⟨ "mention", [⟨ "news", 7⟩] ⟩ ], none⟩

/-- A well-behaved provider with 120 total hits and 50 entries per page. -/
def pages120 (o : Nat) : PageResp := ⟨List.range (min 50 (120 - o)), 120, o, 50⟩

/-! ## Helper lemmas -/

theorem intercalate_go_length (s : String) (l : List String) :
    ∀ acc : String, acc.length ≤ (String.intercalate.go acc s l).length := by
  induction l with
  | nil => intro acc; simp [String.intercalate.go]
  | cons a as ih =>
      intro acc
      rw [String.intercalate.go]
      calc acc.length ≤ (acc ++ s ++ a).length := by
            simp [String.length_append]; omega
        _ ≤ _ := ih _

theorem intercalate_head_le (s a : String) (as : List String) :
    a.length ≤ (String.intercalate s (a :: as)).length :=
  intercalate_go_length s as a

theorem intercalate_cons_ne_empty (s a : String) (as : List String)
    (ha : 0 < a.length) : String.intercalate s (a :: as) ≠ "" := by
  intro h
  have h1 := intercalate_head_le s a as
  rw [h] at h1
  have h0 : ( "" : String).length = 0 := rfl
  omega

theorem titleClause_len_pos (l : List String) : 0 < (titleClause l).length := by
  unfold titleClause
  rw [String.length_append, String.length_append]
  have h : ( "TITLE(" : String).length = 6 := rfl
  omega

theorem subjClause_len_pos (l : List String) : 0 < (subjClause l).length := by
  unfold subjClause
  rw [String.length_append, String.length_append]
  have h : ( "SUBJAREA(" : String).length = 9 := rfl
  omega

theorem authorClause_len_pos (l : List String) :
    0 < (authorClause l).length := by
  unfold authorClause
  rw [String.length_append, String.length_append]
  have h : ( "AUTHOR-NAME(" : String).length = 12 := rfl
  omega

theorem auidClause_len_pos (i : String) (is : List String) :
    0 < (auidClause (i :: is)).length := by
  unfold auidClause
  rw [List.map_cons]
  have h1 := intercalate_head_le " OR " ( "AU-ID(" ++ i ++ ")" )
    (is.map (fun x => "AU-ID(" ++ x ++ ")"))
  have h2 : ( "AU-ID(" ++ i ++ ")" ).length = 6 + i.length + 1 := by
    rw [String.length_append, String.length_append]
    have h3 : ( "AU-ID(" : String).length = 6 := rfl
    have h4 : ( ")" : String).length = 1 := rfl
    omega
  omega

theorem specQueryClauses_mem_pos (kws subjs ids auths : List String) :
    ∀ c ∈ specQueryClauses kws subjs ids auths, 0 < c.length := by
  intro c hc
  simp only [specQueryClauses, List.mem_append] at hc
  rcases hc with ((h | h) | h) | h
  · cases kws with
    | nil => simp at h
    | cons k kt => simp at h; subst h; exact titleClause_len_pos _
  · cases subjs with
    | nil => simp at h
    | cons k kt => simp at h; subst h; exact subjClause_len_pos _
  · cases ids with
    | nil => simp at h
    | cons k kt => simp at h; subst h; exact auidClause_len_pos _ _
  · cases auths with
    | nil => simp at h
    | cons k kt => simp at h; subst h; exact authorClause_len_pos _

theorem specQueryClauses_query_ne_empty (kws subjs ids auths : List String)
    (h : specQueryClauses kws subjs ids auths ≠ []) :
    String.intercalate " AND " (specQueryClauses kws subjs ids auths) ≠ "" := by
  obtain ⟨c, cs, hcc⟩ := List.exists_cons_of_ne_nil h
  rw [hcc]
  exact intercalate_cons_ne_empty _ _ _
    (specQueryClauses_mem_pos kws subjs ids auths c
      (hcc ▸ List.mem_cons_self c cs))

theorem write_query_eq (kws subjs ids auths : List String)
    (dr : Option String) :
    write_query kws subjs ids auths dr =
      (if String.intercalate " AND " (specQueryClauses kws subjs ids auths)
          = "" then
        Except.error errEmptyQuery
      else
        Except.ok
          ⟨0, 50, fieldsStr, dr,
            String.intercalate " AND "
              (specQueryClauses kws subjs ids auths)⟩) := by
  cases kws <;> cases subjs <;> cases ids <;> cases auths <;> rfl

/-! ## Order lemmas for the Metrics Enricher sort -/

theorem oleB_total (x y : Option Int) : oleB x y = true ∨ oleB y x = true := by
  cases x <;> cases y <;> simp [oleB] <;> omega

theorem oleB_trans {x y z : Option Int} (h1 : oleB x y = true)
    (h2 : oleB y z = true) : oleB x z = true := by
  cases x <;> cases y <;> cases z <;> simp [oleB] at * <;> omega

theorem oleB_antisymm {x y : Option Int} (h1 : oleB x y = true)
    (h2 : oleB y x = true) : x = y := by
  cases x <;> cases y <;> simp [oleB] at * <;> omega

theorem keyLeB_total (a b : Option Int × Option Int) :
    keyLeB a b = true ∨ keyLeB b a = true := by
  obtain ⟨a1, a2⟩ := a
  obtain ⟨b1, b2⟩ := b
  by_cases h : a1 = b1
  · subst h
    simp only [keyLeB, if_pos rfl]
    exact oleB_total a2 b2
  · simp only [keyLeB, if_neg h, if_neg (Ne.symm h)]
    exact oleB_total a1 b1

theorem keyLeB_trans {a b c : Option Int × Option Int}
    (h1 : keyLeB a b = true) (h2 : keyLeB b c = true) : keyLeB a c = true := by
  obtain ⟨a1, a2⟩ := a
  obtain ⟨b1, b2⟩ := b
  obtain ⟨c1, c2⟩ := c
  simp only [keyLeB] at *
  by_cases hab : a1 = b1 <;> by_cases hbc : b1 = c1
  · subst hab; subst hbc
    rw [if_pos rfl] at *
    exact oleB_trans h1 h2
  · subst hab
    rw [if_pos rfl] at h1
    rw [if_neg hbc] at *
    exact h2
  · subst hbc
    rw [if_pos rfl] at h2
    rw [if_neg hab] at *
    exact h1
  · rw [if_neg hab] at h1
    rw [if_neg hbc] at h2
    by_cases hac : a1 = c1
    · exfalso
      subst hac
      exact hab (oleB_antisymm h1 h2)
    · rw [if_neg hac]
      exact oleB_trans h1 h2


/-! ## Pagination loop lemmas -/

theorem ceil_bounds (total pp : Nat) (h1 : 0 < total) (h2 : 0 < pp) :
    total ≤ ((total + pp - 1) / pp) * pp ∧
      (((total + pp - 1) / pp) - 1) * pp < total := by
  have hdm := Nat.div_add_mod (total + pp - 1) pp
  have hlt := Nat.mod_lt (total + pp - 1) h2
  have hcomm : ((total + pp - 1) / pp) * pp = pp * ((total + pp - 1) / pp) :=
    Nat.mul_comm _ _
  have hsub : (((total + pp - 1) / pp) - 1) * pp
      = ((total + pp - 1) / pp) * pp - 1 * pp := Nat.sub_mul _ _ _
  have hq1 : 1 ≤ (total + pp - 1) / pp := by
    rcases Nat.eq_zero_or_pos ((total + pp - 1) / pp) with h0 | h
    · rw [h0, Nat.mul_zero] at hdm; omega
    · exact h
  omega

theorem searchLoop_succ (oracle : Nat → PageResp) (maxr : Option Nat)
    (fuel offset : Nat) (acc : List Nat) :
    searchLoop oracle maxr (fuel + 1) offset acc =
      (if (oracle offset).total ≤
          (oracle offset).start + (oracle offset).entries.length then
        some (acc ++ (oracle offset).entries, 1)
      else if capHit maxr (acc ++ (oracle offset).entries).length then
        some (acc ++ (oracle offset).entries, 1)
      else
        (searchLoop oracle maxr fuel
          ((oracle offset).start + (oracle offset).entries.length)
          (acc ++ (oracle offset).entries)).map
            (fun p => (p.1, p.2 + 1))) := rfl

theorem searchLoop_no_cap (oracle : Nat → PageResp) (total pp : Nat)
    (hw : wellBehaved oracle total pp) (hpp : 0 < pp) :
    ∀ (k offset : Nat) (acc : List Nat), offset < total →
      total ≤ offset + k * pp → offset + (k - 1) * pp < total →
      ∃ res, searchLoop oracle none k offset acc = some (res, k) ∧
        res.length = acc.length + (total - offset) := by
  intro k
  induction k with
  | zero =>
      intro offset acc h1 h2 h3
      exfalso
      omega
  | succ k ih =>
      intro offset acc h1 h2 h3
      obtain ⟨ht, hs, hp, hlen⟩ := hw offset
      have hsm : (k + 1) * pp = k * pp + pp := Nat.succ_mul _ _
      have h2x : total ≤ offset + k * pp + pp := by omega
      have h3x : offset + k * pp < total := by
        have e : (k + 1 - 1) * pp = k * pp := by simp
        omega
      by_cases hlast : total - offset ≤ pp
      · have hk0 : k = 0 := by
          by_contra hk
          have hk1 : 0 < k := Nat.pos_of_ne_zero hk
          have h5 : pp ≤ k * pp := Nat.le_mul_of_pos_left pp hk1
          omega
        subst hk0
        refine ⟨acc ++ (oracle offset).entries, ?_, ?_⟩
        · rw [searchLoop_succ, ht, hs, hlen, min_eq_right hlast]
          rw [if_pos (by omega)]
        · rw [List.length_append, hlen, min_eq_right hlast]
      · push_neg at hlast
        have hk1 : 0 < k := by
          by_contra hk
          have hk0 : k = 0 := by omega
          subst hk0
          omega
        obtain ⟨k2, rfl⟩ : ∃ k2, k = k2 + 1 := ⟨k - 1, by omega⟩
        have hmin : min pp (total - offset) = pp := min_eq_left (by omega)
        have e2 : (k2 + 1 - 1) * pp = k2 * pp := by simp
        have e3 : (k2 + 1) * pp = k2 * pp + pp := Nat.succ_mul _ _
        obtain ⟨res, hres, hreslen⟩ :=
          ih (offset + pp) (acc ++ (oracle offset).entries)
            (by omega) (by omega) (by omega)
        refine ⟨res, ?_, ?_⟩
        · rw [searchLoop_succ, ht, hs, hlen, hmin]
          rw [if_neg (by omega)]
          rw [show capHit none ((acc ++ (oracle offset).entries).length)
                = false from rfl]
          simp only [Bool.false_eq_true, if_false]
          rw [hres]
          rfl
        · rw [hreslen, List.length_append, hlen, hmin]
          omega

/-! ## Claim theorems -/

/-- Claim C1 (code-bug evidence): the specification says an entry missing
the DOI key is marked with both counters null, skipped from further lookups
(no analytics fetch issued for it) and kept in the list. The source marks
the entry but ends the except branch with pass rather than continue, so the
loop falls through: with a DOI-less entry after a normal one the loop issues
a second analytics fetch for the previous DOI (the fetch log has two equal
URLs) and overwrites the null counters with that response's counts; with a
DOI-less entry first, the Python local article_doi is unbound and the call
dies with a NameError. -/
theorem get_plumx_metrics_missing_doi_not_skipped :
    get_plumx_metrics fetchC1 [entryWithDoi, entryNoDoi] =
      Except.ok
        ( [ ⟨some "10.1/a", some (some 4), some (some 2)⟩,
            ⟨none, some (some 4), some (some 2)⟩ ],
          [ plumx_url "10.1/a", plumx_url "10.1/a" ] ) ∧
    get_plumx_metrics fetchC1 [entryNoDoi] =
      Except.error "NameError: name article_doi is not defined" := by
  exact ⟨rfl, rfl⟩

/-- Claim C2 counterexample: with the single category named news carrying a
count type named mention with total 7, requesting news returns a count of 0,
not 7 — the code keys the category on the count kind (mention) and the count
type on the citation type (news), the opposite of the claim. -/
theorem access_citation_counts_news_counterexample :
    access_citation_counts respC2 "news" =
      Except.ok [ ("news", some 0) ] ∧
    access_citation_counts respC2 "news" ≠
      Except.ok [ ("news", some 7) ] := by
  constructor
  · rfl
  · intro h
    rw [show access_citation_counts respC2 "news" =
      Except.ok [ ("news", (some 0 : Option Int)) ] from rfl] at h
    simp at h

/-- Claim C2 (amended): with a category list containing exactly one category
named mention holding a count type named news with total 7,
access_citation_counts requesting news returns a news count of 7; and for
any category name absent from the category list the extracted count is 0,
not null. -/
theorem access_citation_counts_news_amended :
    access_citation_counts respC2fixed "news" =
      Except.ok [ ("news", some 7) ] ∧
    ∀ (cats : List Category) (citation_type kind : String),
      (∀ c ∈ cats, c.name ≠ kind) →
      extract_count cats citation_type kind = 0 := by
  constructor
  · rfl
  · intro cats citation_type kind
    induction cats with
    | nil => intro _; rfl
    | cons c cs ih =>
        intro h
        simp only [extract_count]
        rw [if_neg (h c (List.mem_cons_self c cs))]
        exact ih (fun x hx => h x (List.mem_cons_of_mem c hx))

/-- Claim C2 amended witness: a concrete category list not containing the
requested kind yields 0, through the amended theorem. -/
theorem access_citation_counts_news_amended_witness :
    (∀ c ∈ [Category.mk "news" [⟨ "mention", (7 : Int)⟩]],
      c.name ≠ "policycat") ∧
    extract_count [Category.mk "news" [⟨ "mention", (7 : Int)⟩]]
      "news" "policycat" = 0 :=
  ⟨by decide, access_citation_counts_news_amended.2 _ _ _ (by decide)⟩

/-- Claim C3: whenever at least one filter list is non-empty, write_query
succeeds and its query string is exactly the AND-join of one clause per
non-empty filter category, in the fixed order keywords, subjects,
author-identifiers, author-names, with the clause shapes the specification
describes (specQueryClauses); the clause count equals the number of
non-empty filter categories. -/
theorem write_query_clause_structure (kws subjs ids auths : List String)
    (dr : Option String)
    (h : kws ≠ [] ∨ subjs ≠ [] ∨ ids ≠ [] ∨ auths ≠ []) :
    write_query kws subjs ids auths dr =
      Except.ok ⟨0, 50, fieldsStr, dr,
        String.intercalate " AND " (specQueryClauses kws subjs ids auths)⟩ ∧
    (specQueryClauses kws subjs ids auths).length =
      (if kws = [] then 0 else 1) + (if subjs = [] then 0 else 1) +
        (if ids = [] then 0 else 1) + (if auths = [] then 0 else 1) := by
  have hne : specQueryClauses kws subjs ids auths ≠ [] := by
    rcases h with h | h | h | h
    · obtain ⟨x, xs, rfl⟩ := List.exists_cons_of_ne_nil h
      simp [specQueryClauses]
    · obtain ⟨x, xs, rfl⟩ := List.exists_cons_of_ne_nil h
      simp [specQueryClauses]
    · obtain ⟨x, xs, rfl⟩ := List.exists_cons_of_ne_nil h
      simp [specQueryClauses]
    · obtain ⟨x, xs, rfl⟩ := List.exists_cons_of_ne_nil h
      simp [specQueryClauses]
  constructor
  · rw [write_query_eq,
      if_neg (specQueryClauses_query_ne_empty kws subjs ids auths hne)]
  · cases kws <;> cases subjs <;> cases ids <;> cases auths <;>
      simp [specQueryClauses]

/-- Claim C3 witness: all four filter categories non-empty, through the
clause-structure theorem. -/
theorem write_query_clause_structure_witness :
    write_query [ "kw" ] [ "MEDI" ] [ "123" ] [ "Ada" ] none =
      Except.ok ⟨0, 50, fieldsStr, none,
        String.intercalate " AND "
          (specQueryClauses [ "kw" ] [ "MEDI" ] [ "123" ] [ "Ada" ])⟩ ∧
    (specQueryClauses [ "kw" ] [ "MEDI" ] [ "123" ] [ "Ada" ]).length = 4 :=
  ⟨(write_query_clause_structure [ "kw" ] [ "MEDI" ] [ "123" ] [ "Ada" ]
      none (Or.inl (by simp))).1, by rfl⟩

/-- Claim C4: the Metrics Enricher sort is the stable descending sort by the
entry_sorter key (policy counter first, news counter as tiebreak, null policy
sent to negative infinity in both key positions), and on the concrete input
of the specification it yields exactly the claimed order. -/
theorem plumxSort_descending_order :
    plumxSort [mE1, mE2, mE3] = [mE3, mE1, mE2] ∧
    ∀ l : List Entry,
      (plumxSort l).Sorted entryDesc ∧ (plumxSort l).Perm l := by
  have htot : IsTotal Entry entryDesc :=
    ⟨fun a b => keyLeB_total (entry_sorter b) (entry_sorter a)⟩
  have htrans : IsTrans Entry entryDesc :=
    ⟨fun _ _ _ h1 h2 => keyLeB_trans h2 h1⟩
  exact ⟨rfl, fun l =>
    ⟨@List.sorted_insertionSort _ entryDesc _ htot htrans l,
      List.perm_insertionSort entryDesc l⟩⟩

theorem pages120_wellBehaved : wellBehaved pages120 120 50 :=
  fun o => ⟨rfl, rfl, rfl, by simp [pages120]⟩

/-- Claim C5: with no result cap, a well-behaved provider with a positive
total and page size makes the pagination loop terminate after exactly the
ceiling of total over page size fetches, having accumulated exactly total
entries; fuel equal to that fetch count suffices and the reported fetch
count equals it. -/
theorem searchLoop_no_cap_ceiling (oracle : Nat → PageResp) (total pp : Nat)
    (hw : wellBehaved oracle total pp) (h1 : 0 < total) (h2 : 0 < pp) :
    ∃ res, searchLoop oracle none ((total + pp - 1) / pp) 0 [] =
        some (res, (total + pp - 1) / pp) ∧ res.length = total := by
  obtain ⟨hA, hB⟩ := ceil_bounds total pp h1 h2
  obtain ⟨res, hres, hlen⟩ :=
    searchLoop_no_cap oracle total pp hw h2 ((total + pp - 1) / pp) 0 []
      h1 (by omega) (by omega)
  exact ⟨res, hres, by simpa using hlen⟩

/-- Claim C5 witness: 120 total hits at 50 per page give exactly 3 fetches
and 120 accumulated entries. -/
theorem searchLoop_no_cap_ceiling_witness :
    ∃ res, searchLoop pages120 none 3 0 [] = some (res, 3) ∧
      res.length = 120 := by
  have h := searchLoop_no_cap_ceiling pages120 120 50 pages120_wellBehaved
    (by decide) (by decide)
  have e : (120 + 50 - 1) / 50 = 3 := by norm_num
  rw [e] at h
  exact h

/-- Claim C6: with max_results 10 and a full first page of 50 entries whose
total exceeds the page, the loop stops after exactly one fetch having
accumulated the whole 50-entry page (more than the cap), because the cap is
checked after appending the page. -/
theorem searchLoop_cap_after_append (oracle : Nat → PageResp) (total : Nat)
    (hw : wellBehaved oracle total 50) (h1 : 50 < total) (fuel : Nat)
    (h2 : 0 < fuel) :
    ∃ res, searchLoop oracle (some 10) fuel 0 [] = some (res, 1) ∧
      res.length = 50 ∧ 10 < res.length := by
  obtain ⟨fuel2, rfl⟩ : ∃ f2, fuel = f2 + 1 := ⟨fuel - 1, by omega⟩
  obtain ⟨ht, hs, hp, hlen⟩ := hw 0
  have hm : min 50 (120 - 0) = 50 := by norm_num
  have hm0 : min 50 (total - 0) = 50 := min_eq_left (by omega)
  refine ⟨[] ++ (oracle 0).entries, ?_, ?_, ?_⟩
  · rw [searchLoop_succ, ht, hs, hlen, hm0]
    rw [if_neg (by omega)]
    have hcl : ([] ++ (oracle 0).entries).length = 50 := by
      simp [hlen]
      omega
    rw [hcl]
    simp [capHit]
  · simp [hlen]
    omega
  · simp [hlen]
    omega

/-- Claim C6 witness: the 120-total provider with cap 10 stops after one
fetch with 50 entries. -/
theorem searchLoop_cap_after_append_witness :
    ∃ res, searchLoop pages120 (some 10) 3 0 [] = some (res, 1) ∧
      res.length = 50 ∧ 10 < res.length :=
  searchLoop_cap_after_append pages120 120 pages120_wellBehaved
    (by decide) 3 (by decide)

/-- Claim C7: fetch_data dispatches solely on the declared content type, in
the if-elif order of the source: image or pdf yields the raw response, else
json yields the parsed body, else xml raises, else the call returns nothing;
and replacing the status code changes nothing but the status stored in a raw
echo, so no branch inspects the status code. -/
theorem fetch_data_content_type_dispatch (r : HttpResponse) :
    ((substrB "image" r.contentType || substrB "pdf" r.contentType) = true →
      fetch_data r = Except.ok (some (FetchValue.raw r))) ∧
    ((substrB "image" r.contentType || substrB "pdf" r.contentType) = false →
      substrB "json" r.contentType = true →
      fetch_data r = Except.ok (some (FetchValue.json r.body))) ∧
    ((substrB "image" r.contentType || substrB "pdf" r.contentType) = false →
      substrB "json" r.contentType = false →
      substrB "xml" r.contentType = true →
      fetch_data r = Except.error errXml) ∧
    ((substrB "image" r.contentType || substrB "pdf" r.contentType) = false →
      substrB "json" r.contentType = false →
      substrB "xml" r.contentType = false →
      fetch_data r = Except.ok none) ∧
    (∀ s : Nat,
      fetch_data { r with status := s } =
        (fetch_data r).map (Option.map (substStatus s))) := by
  refine ⟨?_, ?_, ?_, ?_, ?_⟩
  · intro h
    simp [fetch_data, h]
  · intro h hj
    simp [fetch_data, h, hj]
  · intro h hj hx
    simp [fetch_data, h, hj, hx]
  · intro h hj hx
    simp [fetch_data, h, hj, hx]
  · intro s
    by_cases h : (substrB "image" r.contentType
        || substrB "pdf" r.contentType) = true
    · simp [fetch_data, h, substStatus, Except.map]
    · rw [Bool.not_eq_true] at h
      by_cases hj : substrB "json" r.contentType = true
      · simp [fetch_data, h, hj, substStatus, Except.map]
      · rw [Bool.not_eq_true] at hj
        by_cases hx : substrB "xml" r.contentType = true
        · simp [fetch_data, h, hj, hx, Except.map]
        · rw [Bool.not_eq_true] at hx
          simp [fetch_data, h, hj, hx, Except.map]

/-- Claim C7 witness: a JSON response with a non-2xx status still yields the
parsed body, through the dispatch theorem. -/
theorem fetch_data_content_type_dispatch_witness :
    fetch_data ⟨ "application/json", 404, "BODY" ⟩ =
      Except.ok (some (FetchValue.json "BODY")) :=
  (fetch_data_content_type_dispatch ⟨ "application/json", 404, "BODY" ⟩).2.1
    (by rfl) (by rfl)

theorem substr_scidir_url :
    substrB "sciencedirect"
      "https://api.elsevier.com/content/search/sciencedirect" = true := rfl

theorem substr_scopus_url :
    substrB "sciencedirect"
      "https://api.elsevier.com/content/search/scopus" = false := rfl

/-- Claim C8: for the sciencedirect/scidir endpoint a non-empty
author-identifier filter raises the author-id InvalidQuery error and an
otherwise non-empty subject filter raises the subject InvalidQuery error —
for every oracle and fuel, so no page fetch is consulted before the error;
for the scopus endpoint neither check fires and the call is fully determined
by write_query and the pagination loop, with both filters accepted. -/
theorem search_database_scidir_filters (oracle : Nat → PageResp)
    (kws : List String) (dr : Option String) (auths subjs ids : List String)
    (db : String) (maxr : Option Nat) (fuel : Nat)
    (hdb : stripStr (lowerStr db) = "sciencedirect" ∨
      stripStr (lowerStr db) = "scidir") :
    (ids ≠ [] →
      search_database oracle kws dr auths subjs ids db maxr fuel =
        Except.error errScidirAuthorIds) ∧
    (ids = [] → subjs ≠ [] →
      search_database oracle kws dr auths subjs ids db maxr fuel =
        Except.error errScidirSubjs) ∧
    (∀ db2, stripStr (lowerStr db2) = "scopus" →
      search_database oracle kws dr auths subjs ids db2 maxr fuel =
        (write_query kws subjs ids auths dr).map
          (fun params => searchLoop oracle maxr fuel params.start [])) := by
  have hsel : selectSearchUrl db =
      some "https://api.elsevier.com/content/search/sciencedirect" := by
    rcases hdb with h | h
    · unfold selectSearchUrl
      rw [h]
      rfl
    · unfold selectSearchUrl
      rw [h]
      rfl
  refine ⟨?_, ?_, ?_⟩
  · intro hid
    simp only [search_database, hsel]
    rw [if_pos ⟨hid, substr_scidir_url⟩]
  · intro hidnil hsub
    simp only [search_database, hsel]
    rw [if_neg (fun hc => hc.1 hidnil)]
    rw [if_pos ⟨hsub, substr_scidir_url⟩]
  · intro db2 h2
    have hsel2 : selectSearchUrl db2 =
        some "https://api.elsevier.com/content/search/scopus" := by
      unfold selectSearchUrl
      rw [h2]
      rfl
    simp only [search_database, hsel2]
    rw [if_neg (fun hc => absurd hc.2 (by simp [substr_scopus_url]))]
    rw [if_neg (fun hc => absurd hc.2 (by simp [substr_scopus_url]))]
    cases hwq : write_query kws subjs ids auths dr <;> simp [Except.map]

/-- Claim C8 witness: scidir with a non-empty author-identifier filter
errors before any fetch; scopus with the same filters is accepted and the
call reduces to the query build plus the loop. -/
theorem search_database_scidir_filters_witness :
    search_database pages120 [ "kw" ] none [] [] [ "999" ] "scidir"
      (some 50) 3 = Except.error errScidirAuthorIds ∧
    search_database pages120 [ "kw" ] none [] [] [ "999" ] "scopus"
      (some 50) 3 =
      (write_query [ "kw" ] [] [ "999" ] [] none).map
        (fun params => searchLoop pages120 (some 50) 3 params.start []) := by
  have h := search_database_scidir_filters pages120 [ "kw" ] none [] []
    [ "999" ] "scidir" (some 50) 3 (Or.inr (by rfl))
  exact ⟨h.1 (by simp), h.2.2 "scopus" (by rfl)⟩

/-- Claim C9: when every filter list is empty the constructed query string
is empty and write_query raises the empty-query InvalidQuery error, for any
date range, returning no parameters. -/
theorem write_query_all_empty_rejected (dr : Option String) :
    write_query [] [] [] [] dr = Except.error errEmptyQuery := rfl

/-- Claim C10: for a citation type that normalises to none of news, policy
or both, access_citation_counts raises the invalid-citation-type error only
when the response carries the count_categories key; when that key is absent
it returns the normalised citation type mapped to null without raising, so
the validity check is skipped for responses lacking category data. -/
theorem access_citation_counts_invalid_type_guard (resp : PlumxResponse)
    (ct : String) (h1 : stripStr (lowerStr ct) ≠ "news")
    (h2 : stripStr (lowerStr ct) ≠ "policy")
    (h3 : stripStr (lowerStr ct) ≠ "both") :
    (resp.count_categories = none →
      access_citation_counts resp ct =
        Except.ok [ (stripStr (lowerStr ct), none) ]) ∧
    (∀ cats, resp.count_categories = some cats →
      access_citation_counts resp ct = Except.error errCitationType) := by
  constructor
  · intro hn
    simp only [access_citation_counts, hn]
    rw [if_neg h3]
  · intro cats hc
    simp only [access_citation_counts, hc]
    rw [if_neg h3, if_neg h1, if_neg h2]

/-- Claim C10 witness: the invalid citation type banana is accepted (mapped
to null) when count_categories is absent and rejected when it is present. -/
theorem access_citation_counts_invalid_type_guard_witness :
    access_citation_counts ⟨none, some "id1"⟩ "banana" =
      Except.ok [ ("banana", none) ] ∧
    access_citation_counts ⟨some [], none⟩ "banana" =
      Except.error errCitationType := by
  have g1 := access_citation_counts_invalid_type_guard ⟨none, some "id1"⟩
    "banana" (by decide) (by decide) (by decide)
  have g2 := access_citation_counts_invalid_type_guard ⟨some [], none⟩
    "banana" (by decide) (by decide) (by decide)
  have e : stripStr (lowerStr "banana") = "banana" := rfl
  refine ⟨?_, g2.2 [] rfl⟩
  have h := g1.1 rfl
  rw [e] at h
  exact h
